import Mathlib

/-!
Verification of the FASTag BBPS recharge front end: a shallow embedding of
the repository's normalization, validation, error-classification and proxy
request/response logic, together with theorems settling the specification's
claims about them.

JSON values reaching this code are loosely typed.  The embedding models the
fields the code reads as `Option String` / `Option Bool` (a missing field is
`none`), and models JavaScript truthiness and `||`-coalescing explicitly.
-/

namespace FastagSabpe

/-- JS truthiness of an optional string field: `undefined` and `""` are falsy. -/
def truthyS : Option String → Bool
  | none => false
  | some s => s ≠ ""

/-- JS `a || b` on two strings (`""` is falsy and falls through to `b`). -/
def jsOrS (a b : String) : String := if a = "" then b else a

/-- JS `a || b` on optional strings, as used for field coalescing such as
`data?.statuscode || data?.error?.statuscode`. -/
def jsOrStr (a b : Option String) : Option String :=
  match a with
  | some s => if s = "" then b else some s
  | none => b

/-! ## Upstream biller records and their normalization (`fetchBillers`) -/

/-- The fields of an upstream biller record that `fetchBillers` reads.
A field absent from the JSON record is `none`; `isAvailable` is `some b`
exactly when the record carries a boolean there (the `typeof` check). -/
structure UpBiller where
  billerId : Option String := none
  id : Option String := none
  billerName : Option String := none
  name : Option String := none
  isAvailable : Option Bool := none
  billerStatus : Option String := none
  coverageCity : Option String := none
  coverageState : Option String := none
  iconUrl : Option String := none
deriving DecidableEq, Repr

/-- The normalized biller shape (`type Biller` in the page components). -/
structure Biller where
  billerId : String
  billerName : String
  isAvailable : Bool
  coverage : String
  iconUrl : Option String := none
deriving DecidableEq, Repr

/-- The record-mapping body of `fetchBillers`:
`billerId: b.billerId || b.id || ""`,
`isAvailable: typeof b.isAvailable === "boolean" ? b.isAvailable : (b.billerStatus === "ACTIVE")`,
`coverage: b.coverageCity && b.coverageCity !== "-" ? b.coverageCity
  : (b.coverageState && b.coverageState !== "-" ? b.coverageState : "PAN India")`. -/
def normalizeBiller (b : UpBiller) : Biller :=
  { billerId := jsOrS (b.billerId.getD "") (jsOrS (b.id.getD "") "")
    billerName := jsOrS (b.billerName.getD "") (jsOrS (b.name.getD "") "")
    isAvailable :=
      match b.isAvailable with
      | some v => v
      | none => b.billerStatus == some "ACTIVE"
    coverage :=
      if truthyS b.coverageCity && (b.coverageCity.getD "" ≠ "-") then b.coverageCity.getD ""
      else if truthyS b.coverageState && (b.coverageState.getD "" ≠ "-") then b.coverageState.getD ""
      else "PAN India"
    iconUrl := b.iconUrl }

/-- C4's coverage rule exactly as the claim words it: the city whenever the
city field is neither `undefined` nor `"-"`, else the state under the same
condition, else `"PAN India"`.  (Second definition, written from the claim,
for comparison with `normalizeBiller`.) -/
def claimC4Coverage (b : UpBiller) : String :=
  match b.coverageCity with
  | some c =>
    if c ≠ "-" then c
    else
      match b.coverageState with
      | some st => if st ≠ "-" then st else "PAN India"
      | none => "PAN India"
  | none =>
    match b.coverageState with
    | some st => if st ≠ "-" then st else "PAN India"
    | none => "PAN India"

/-- C4's coverage rule as amended: a present-but-empty city or state also
falls through, matching JS truthiness.  (Definition written from the amended
claim, for comparison with `normalizeBiller`.) -/
def amendedC4Coverage (b : UpBiller) : String :=
  match b.coverageCity with
  | some c =>
    if c ≠ "" ∧ c ≠ "-" then c
    else
      match b.coverageState with
      | some st => if st ≠ "" ∧ st ≠ "-" then st else "PAN India"
      | none => "PAN India"
  | none =>
    match b.coverageState with
    | some st => if st ≠ "" ∧ st ≠ "-" then st else "PAN India"
    | none => "PAN India"

/-! ## Case mapping and substring search

`String.toUpper`/`toLower` map ASCII letters only, matching how the code's
`toUpperCase()` and the `/.../i` regex flag act on the ASCII vocabulary
involved here.  They are re-spelled over `List Char` so concrete instances
evaluate. -/

/-- ASCII-uppercase a string (models JS `toUpperCase` on the code's vocabulary). -/
def upperStr (s : String) : String := ⟨s.toList.map Char.toUpper⟩

/-- ASCII-lowercase a string (models the `i` flag of the code's regexes). -/
def lowerStr (s : String) : String := ⟨s.toList.map Char.toLower⟩

/-- `matchesAt p l`: `p` is an initial segment of `l`. -/
def matchesAt : List Char → List Char → Bool
  | [], _ => true
  | _ :: _, [] => false
  | a :: ps, b :: ls => a == b && matchesAt ps ls

/-- `hasSub p l`: `p` occurs contiguously somewhere in `l`. -/
def hasSub (p : List Char) : List Char → Bool
  | [] => matchesAt p []
  | c :: ls => matchesAt p (c :: ls) || hasSub p ls

/-- `strHasSub needle hay`: `needle` is a substring of `hay`. -/
def strHasSub (needle hay : String) : Bool := hasSub needle.toList hay.toList

/-! ## Pre-enquiry response bodies and error classification

The fields of an upstream pre-enquiry JSON body that `isErrorResponse` and
`extractErrorStatus` read.  `error` can be absent, a string, or a nested
object carrying its own `statuscode`/`status`. -/

/-- The nested `error` object shape: `error.statuscode` / `error.status`. -/
structure ErrObj where
  statuscode : Option String := none
  status : Option String := none
deriving DecidableEq, Repr

/-- The `error` field of a body: absent, a string, or a nested object. -/
inductive ErrVal where
  | undef : ErrVal
  | str : String → ErrVal
  | obj : ErrObj → ErrVal
deriving DecidableEq, Repr

/-- The top-level fields of a pre-enquiry response body that the error
classification and message extraction read. -/
structure PreBody where
  statuscode : Option String := none
  status : Option String := none
  error : ErrVal := .undef
  message : Option String := none
deriving DecidableEq, Repr

/-- `data?.error?.statuscode` (undefined unless `error` is an object). -/
def errStatuscodeOf : ErrVal → Option String
  | .obj o => o.statuscode
  | _ => none

/-- `data?.error?.status` (undefined unless `error` is an object). -/
def errStatusOf : ErrVal → Option String
  | .obj o => o.status
  | _ => none

/-- `typeof data?.error === "string" ? data.error : ""`. -/
def errStrOf : ErrVal → String
  | .str s => s
  | _ => ""

/-- The fixed error-code vocabulary of `isErrorResponse`. -/
def errorStatusCodes : List String := ["ERR", "IAN", "INV", "NF", "NA"]

/-- The regex `/invalid|error|failed|not found|unavailable/i` applied to a
status string: case-insensitive containment of any of the five patterns. -/
def errKeywordTest (s : String) : Bool :=
  ["invalid", "error", "failed", "not found", "unavailable"].any
    (fun p => strHasSub p (lowerStr s))

/-- `isErrorResponse` from `src/app/api/bbps/pre-enquiry/route.ts`:
coalesces `statuscode`/`error.statuscode` and `status`/`error.status` with
JS `||`, then checks the code vocabulary (upper-cased) and the keyword regex. -/
def isErrorResponse (d : PreBody) : Bool :=
  let statuscode := jsOrStr d.statuscode (errStatuscodeOf d.error)
  let status := jsOrStr d.status (errStatusOf d.error)
  let hasErrorStatusCode :=
    truthyS statuscode && errorStatusCodes.contains (upperStr (statuscode.getD ""))
  let hasErrorStatus := truthyS status && errKeywordTest (status.getD "")
  hasErrorStatusCode || hasErrorStatus

/-- C1's classification rule exactly as the claim words it: the coalesced
status-code field equals one of ERR/IAN/INV/NF/NA case-insensitively, or the
coalesced status field contains one of the five keyword substrings
case-insensitively.  (Second definition, written from the claim, for
comparison with `isErrorResponse`.) -/
def claimC1DomainError (d : PreBody) : Bool :=
  let sc := jsOrStr d.statuscode (errStatuscodeOf d.error)
  let st := jsOrStr d.status (errStatusOf d.error)
  (match sc with
   | some s =>
     upperStr s == "ERR" || upperStr s == "IAN" || upperStr s == "INV" ||
       upperStr s == "NF" || upperStr s == "NA"
   | none => false) ||
  (match st with
   | some s =>
     strHasSub "invalid" (lowerStr s) || strHasSub "error" (lowerStr s) ||
       strHasSub "failed" (lowerStr s) || strHasSub "not found" (lowerStr s) ||
       strHasSub "unavailable" (lowerStr s)
   | none => false)

/-! ## Message extraction (`extractErrorStatus`, both variants)

The chains are built from JS `||` over loosely-typed values, so the
embedding uses a small JS-value type with explicit truthiness. -/

/-- A JS value appearing in the extraction chains: `undefined`, a string, or
the nested error object. -/
inductive JV where
  | undef : JV
  | jstr : String → JV
  | jobj : ErrObj → JV
deriving DecidableEq, Repr

/-- JS truthiness: `undefined` and `""` are falsy; objects are truthy. -/
def JV.truthy : JV → Bool
  | .undef => false
  | .jstr s => s ≠ ""
  | .jobj _ => true

/-- JS `a || b` on `JV`. -/
def jvOr (a b : JV) : JV := if a.truthy then a else b

/-- Lift an optional string field to a `JV`. -/
def jvOfOpt : Option String → JV
  | none => .undef
  | some s => .jstr s

/-- The `error` field as a `JV`. -/
def errAsJV : ErrVal → JV
  | .undef => .undef
  | .str s => .jstr s
  | .obj o => .jobj o

/-- Read a `JV` as the string the handlers use (`extractErrorStatus` is
declared `: string`; the proxy chain in fact always produces a string). -/
def jvToStr : JV → String
  | .jstr s => s
  | _ => ""

/-- `extractErrorStatus` from `src/app/api/bbps/pre-enquiry/route.ts`:
`data?.status || data?.error?.status || (typeof data?.error === "string" ? data.error : "")
 || data?.message || "An error occurred"`. -/
def extractErrorStatus (d : PreBody) : JV :=
  jvOr (jvOfOpt d.status)
    (jvOr (jvOfOpt (errStatusOf d.error))
      (jvOr (.jstr (errStrOf d.error))
        (jvOr (jvOfOpt d.message) (.jstr "An error occurred"))))

/-- `extractErrorStatus` from the client page component (`part_000`): the same
chain but with `data?.error ||` prepended, so a truthy `error` value of any
shape (including the nested object) is returned first. -/
def clientExtractErrorStatus (d : PreBody) : JV :=
  jvOr (errAsJV d.error)
    (jvOr (jvOfOpt d.status)
      (jvOr (jvOfOpt (errStatusOf d.error))
        (jvOr (.jstr (errStrOf d.error))
          (jvOr (jvOfOpt d.message) (.jstr "An error occurred")))))

/-- First non-empty string in a list, else a default. -/
def firstNonEmpty : List String → String → String
  | [], dflt => dflt
  | s :: rest, dflt => if s = "" then firstNonEmpty rest dflt else s

/-- C2's extraction chain exactly as the claim words it: explicit error
string, then status, then nested `error.status`, then `message`, then the
generic fallback.  (Second definition, written from the claim, for
comparison with the two `extractErrorStatus` variants.) -/
def claimC2Chain (d : PreBody) : String :=
  firstNonEmpty
    [errStrOf d.error, d.status.getD "", (errStatusOf d.error).getD "", d.message.getD ""]
    "An error occurred"

/-- C2's proxy-side chain as amended: status, then nested `error.status`,
then the explicit error string, then `message`, then the fallback.
(Definition written from the amended claim.) -/
def amendedC2ProxyChain (d : PreBody) : String :=
  firstNonEmpty
    [d.status.getD "", (errStatusOf d.error).getD "", errStrOf d.error, d.message.getD ""]
    "An error occurred"

/-- C2's client-side chain as amended: a truthy `error` value of any shape is
returned first (an object `error` yields the object itself, not a string);
otherwise the first non-empty of status and message, else the fallback.
(Definition written from the amended claim.) -/
def amendedC2ClientChain (d : PreBody) : JV :=
  match d.error with
  | .obj o => .jobj o
  | .str s =>
    if s ≠ "" then .jstr s
    else .jstr (firstNonEmpty [d.status.getD "", d.message.getD ""] "An error occurred")
  | .undef =>
    .jstr (firstNonEmpty [d.status.getD "", d.message.getD ""] "An error occurred")

/-! ## Proxy route handlers

Each handler is modelled as a function from the parsed request and the
upstream interaction's outcome to the HTTP response it produces.  An
upstream interaction either yields a parsed JSON body with a status code
(`ok`), or throws somewhere in `fetch`/`res.json()` (`thrown`), which the
handlers' `catch` turns into HTTP 500. -/

/-- Outcome of the upstream `fetch` + `res.json()` pair. -/
inductive Upstream (α : Type) where
  | ok : Nat → α → Upstream α
  | thrown : String → Upstream α
deriving DecidableEq, Repr

/-- The JSON body of a proxy response:
`pass b` is `NextResponse.json(data)`,
`errBody b` is `{ error: data }`,
`errMsg m` is `{ error: m }`,
`errMsgDetails m d` is `{ error: m, details: d }`. -/
inductive BodyOut (α : Type) where
  | pass : α → BodyOut α
  | errBody : α → BodyOut α
  | errMsg : String → BodyOut α
  | errMsgDetails : String → α → BodyOut α
deriving DecidableEq, Repr

/-- A proxy HTTP response: status code and JSON body. -/
structure HResp (α : Type) where
  status : Nat
  body : BodyOut α
deriving DecidableEq, Repr

/-- `res.ok`: status in the 2xx range. -/
def resOk (s : Nat) : Bool := 200 ≤ s && s < 300

/-- The request fields the billers proxy reads:
`body?.pagination?.pageNumber`, `body?.pagination?.recordsPerPage`,
`body?.filters?.categoryKey` (each `none` when the field or its enclosing
object is missing). -/
structure BillersBody where
  pageNumber : Option Int := none
  recordsPerPage : Option Int := none
  categoryKey : Option String := none
deriving DecidableEq, Repr

/-- The body the billers proxy forwards upstream. -/
structure BillersFwd where
  pageNumber : Int
  recordsPerPage : Int
  categoryKey : String
deriving DecidableEq, Repr

/-- The request-shaping step of `src/app/api/bbps/billers/route.ts`: the
request parse result (`none` when `request.json()` rejected, which the
`.catch(() => ({}))` turns into an empty object) is turned into the upstream
body with `?? 1`, `?? 50`, `?? "C10"` field-wise defaults. -/
def billersForward (parsed : Option BillersBody) : BillersFwd :=
  let b := parsed.getD {}
  { pageNumber := b.pageNumber.getD 1
    recordsPerPage := b.recordsPerPage.getD 50
    categoryKey := b.categoryKey.getD "C10" }

/-- The `POST` handler of `src/app/api/bbps/billers/route.ts`.  The upstream
is a function of the forwarded body; the result pairs the forwarded body
with the HTTP response. -/
def billersPOST (α : Type) (parsed : Option BillersBody)
    (up : BillersFwd → Upstream α) : BillersFwd × HResp α :=
  let fwd := billersForward parsed
  (fwd,
    match up fwd with
    | .thrown m => ⟨500, .errMsg m⟩
    | .ok s b => if resOk s then ⟨200, .pass b⟩ else ⟨s, .errBody b⟩)

/-- The `POST` handler of the biller-details proxy (`part_001`): a request
parse failure is thrown into the outer `catch` (HTTP 500); a falsy
`billerId` is rejected with HTTP 400 before any upstream call; otherwise the
upstream body is passed through or re-wrapped as `{ error: data }`. -/
def billerDetailsPOST (α : Type) (req : Except String (Option String))
    (up : Upstream α) : HResp α :=
  match req with
  | .error m => ⟨500, .errMsg m⟩
  | .ok billerId =>
    if !truthyS billerId then ⟨400, .errMsg "billerId is required"⟩
    else
      match up with
      | .thrown m => ⟨500, .errMsg m⟩
      | .ok s b => if resOk s then ⟨200, .pass b⟩ else ⟨s, .errBody b⟩

/-- The request fields the pre-enquiry proxy guards on.  `inputParameters`
is an object, so it is truthy whenever present. -/
structure PreReq where
  billerId : Option String := none
  inputParameters : Option (List (String × String)) := none
  externalRef : Option String := none
deriving DecidableEq, Repr

/-- The guard `if (!billerId || !inputParameters || !externalRef)` negated:
all three request fields are present and truthy. -/
def preReqValid (r : PreReq) : Bool :=
  truthyS r.billerId && r.inputParameters.isSome && truthyS r.externalRef

/-- The `POST` handler of `src/app/api/bbps/pre-enquiry/route.ts`: request
parse failures hit the outer `catch` (HTTP 500); missing request fields give
HTTP 400; a non-2xx upstream response is re-wrapped as
`{ error: extractErrorStatus(data) || "Request failed", details: data }`
with the upstream status; a 2xx body classified by `isErrorResponse` is
re-wrapped the same way (with fallback `"Invalid request"`) under HTTP 400;
otherwise the body is passed through. -/
def preEnquiryPOST (req : Except String PreReq) (up : Upstream PreBody) : HResp PreBody :=
  match req with
  | .error m => ⟨500, .errMsg m⟩
  | .ok r =>
    if !preReqValid r then
      ⟨400, .errMsg "billerId, inputParameters, externalRef are required"⟩
    else
      match up with
      | .thrown m => ⟨500, .errMsg m⟩
      | .ok s d =>
        if !resOk s then
          ⟨s, .errMsgDetails (jsOrS (jvToStr (extractErrorStatus d)) "Request failed") d⟩
        else if isErrorResponse d then
          ⟨400, .errMsgDetails (jsOrS (jvToStr (extractErrorStatus d)) "Invalid request") d⟩
        else ⟨200, .pass d⟩

/-! ## Input parameters and submit-time validation (`onSubmit`) -/

/-- The local `InputParameter` shape. -/
structure InputParameter where
  name : String
  paramName : String
  dataType : String := "ALPHANUMERIC"
  minLength : Nat := 0
  maxLength : Nat := 256
  regex : String := ""
  mandatory : Bool := false
  desc : String := ""
deriving DecidableEq, Repr

/-- The local `BillerDetails` shape. -/
structure BillerDetails where
  inputParameters : List InputParameter
  paymentModes : List String := []
  fetchRequirement : String := "SUPPORTED"
  supportValidation : String := "SUPPORTED"
  paymentAmountExactness : String := "EXACT"
deriving DecidableEq, Repr

/-- The per-parameter body of the `onSubmit` validation loop.  Regex matching
is delegated to JS's `RegExp`, abstracted here as the `rtest` argument
(`rtest pattern value` models `new RegExp(pattern).test(value)`):
`const value = formData[p.paramName] || ""`, then
(1) `p.mandatory && !value`, (2) `value && p.regex && !regex.test(value)`,
(3) `value && value.length < p.minLength`, each returning its message. -/
def checkParam (rtest : String → String → Bool) (fd : List (String × String))
    (p : InputParameter) : Option String :=
  let value := (fd.lookup p.paramName).getD ""
  if p.mandatory && value == "" then some ("Please enter " ++ p.name)
  else if value != "" && p.regex != "" && !rtest p.regex value then
    some ("Invalid " ++ p.name)
  else if value != "" && decide (value.length < p.minLength) then
    some (p.name ++ " must be at least " ++ toString p.minLength ++ " characters")
  else none

/-- The `for (const p of billerDetails.inputParameters)` loop of `onSubmit`:
returns the first failing parameter's message (the loop's early `return`),
or `none` when every parameter passes. -/
def validateParams (rtest : String → String → Bool) (fd : List (String × String)) :
    List InputParameter → Option String
  | [] => none
  | p :: ps =>
    match checkParam rtest fd p with
    | some m => some m
    | none => validateParams rtest fd ps

/-- What the wizard's `onSubmit` does up to the point of the network call:
the alert raised, whether `preEnquiryApi` is invoked, and the step shown at
that moment. -/
structure SubmitOutcome where
  alertMsg : Option String
  networkCalled : Bool
  step : Nat
deriving DecidableEq, Repr

/-- The wizard page's `onSubmit` up to the `preEnquiryApi` call: an early
return when details or biller are missing; on a validation failure the
parameter-specific alert is set, no network call is made, and the step is
unchanged; on success the wizard moves to step 3 and the call is made. -/
def onSubmit (rtest : String → String → Bool) (details : Option BillerDetails)
    (selected : Option Biller) (fd : List (String × String)) (currentStep : Nat) :
    SubmitOutcome :=
  match details, selected with
  | some bd, some _ =>
    (match validateParams rtest fd bd.inputParameters with
     | some m => { alertMsg := some m, networkCalled := false, step := currentStep }
     | none => { alertMsg := none, networkCalled := true, step := 3 })
  | _, _ => { alertMsg := none, networkCalled := false, step := currentStep }

/-! ## Biller list accumulation (infinite-scroll and wizard variants) -/

/-- The infinite-scroll `setBillers` updater: `seen` is the set of ids
already in `prev` (computed once, before the loop), and each fetched record
whose id is not in `seen` is appended in order. -/
def mergeBillers (prev records : List Biller) : List Biller :=
  let seen := prev.map (fun p => p.billerId)
  prev ++ records.filter (fun r => !seen.contains r.billerId)

/-- The wizard variant's `setBillers(records)`: each page replaces the list. -/
def replaceBillers (_prev records : List Biller) : List Biller := records

/-! ## Wizard state and "Back" transitions -/

/-- The `EnquiryResponse` shape (string-keyed maps as association lists). -/
structure EnquiryResponse where
  enquiryReferenceId : String
  amount : ℚ := 0
  customerName : Option String := none
  policyStatus : Option String := none
  dueDate : Option String := none
  billNumber : Option String := none
  billPeriod : Option String := none
  billDate : Option String := none
  billDueDate : Option String := none
  customerParams : List (String × String) := []
  additionalDetails : List (String × String) := []
  billDetails : List (String × String) := []
deriving DecidableEq, Repr

/-- The wizard page's state variables relevant to navigation. -/
structure WizardState where
  currentStep : Nat
  selectedBiller : Option Biller := none
  billerDetails : Option BillerDetails := none
  formData : List (String × String) := []
  enquiryData : Option EnquiryResponse := none
  selectedPaymentMode : Option String := none
deriving DecidableEq, Repr

/-- The step-2 "Back" button and back arrow: `setCurrentStep(1)` and nothing
else. -/
def backFromStep2 (s : WizardState) : WizardState := { s with currentStep := 1 }

/-- The step-3 "Back" button and back arrow: `setCurrentStep(2)` and nothing
else. -/
def backFromStep3 (s : WizardState) : WizardState := { s with currentStep := 2 }

/-! ## Amount formatting and parsing (`formatINR`, `toNumber`)

Amounts are embedded exactly: a non-negative amount with at most two decimal
places is represented by its value in paise (`n : Nat`, the amount being
`n / 100`), and parsing produces a rational.  This models the number ↔
string round trip without floating-point artefacts, which cannot arise for
the claim's amounts anyway. -/

/-- The decimal digit characters. -/
def digitChar : Nat → Char
  | 0 => '0' | 1 => '1' | 2 => '2' | 3 => '3' | 4 => '4'
  | 5 => '5' | 6 => '6' | 7 => '7' | 8 => '8' | _ => '9'

/-- Little-endian decimal digits of `n`, with explicit fuel (the first
argument; `n` itself is always enough fuel). -/
def natDigitsRevF : Nat → Nat → List Char
  | 0, _ => []
  | _ + 1, 0 => []
  | f + 1, n + 1 => digitChar ((n + 1) % 10) :: natDigitsRevF f ((n + 1) / 10)

/-- Big-endian decimal digit characters of `n` (`"0"` for zero). -/
def natDigits (n : Nat) : List Char :=
  if n = 0 then ['0'] else (natDigitsRevF n n).reverse

/-- Numeric value of a decimal digit character. -/
def digitVal (c : Char) : Nat := c.toNat - 48

/-- Numeric value of a big-endian decimal digit string. -/
def digitsVal (l : List Char) : Nat := l.foldl (fun a c => 10 * a + digitVal c) 0

/-- Insert `en-IN` group separators into a reversed digit list: the counter
counts down to the next comma (3 for the first group, then 2). -/
def gRev : Nat → List Char → List Char
  | _, [] => []
  | 0, c :: l => ',' :: c :: gRev 1 l
  | Nat.succ k, c :: l => c :: gRev k l

/-- `en-IN` digit grouping: the last three digits, then groups of two. -/
def groupIndian (ds : List Char) : List Char := (gRev 3 ds.reverse).reverse

/-- The two fraction digits forced by
`{ minimumFractionDigits: 2, maximumFractionDigits: 2 }` (for `r < 100`). -/
def pad2 (r : Nat) : List Char := [digitChar (r / 10), digitChar (r % 10)]

/-- `formatINR` (the `Intl.NumberFormat("en-IN", { minimumFractionDigits: 2,
maximumFractionDigits: 2 })` rendering) on the exactly-represented amount
`n / 100`: grouped integer digits, a dot, and two fraction digits. -/
def formatINR (n : Nat) : String :=
  ⟨groupIndian (natDigits (n / 100)) ++ '.' :: pad2 (n % 100)⟩

/-- The character class `\s` of the `replace(/[,\s]/g, "")` strip. -/
def isJsSpace (c : Char) : Bool :=
  [9, 10, 11, 12, 13, 32, 160, 5760, 8232, 8233, 8239, 8287, 12288, 65279].contains c.toNat
    || (8192 ≤ c.toNat && c.toNat ≤ 8202)

/-- The characters that survive `replace(/[,\s]/g, "")`: everything except
commas and whitespace. -/
def keepChar (c : Char) : Bool := !(c == ',' || isJsSpace c)

/-- `String(val).replace(/[,\s]/g, "")`: drop every comma and whitespace. -/
def stripSep (l : List Char) : List Char :=
  l.filter keepChar

/-- The longest digit run at the head of the list, and the rest. -/
def takeDigits : List Char → List Char × List Char
  | [] => ([], [])
  | c :: l =>
    if c.isDigit then
      let p := takeDigits l
      (c :: p.1, p.2)
    else ([], c :: l)

/-- The optional exponent suffix of a `parseFloat` literal: `e`/`E`, an
optional sign, digits; ignored if no digit follows the marker. -/
def parseExp (q : ℚ) (l : List Char) : ℚ :=
  match l with
  | 'e' :: rest | 'E' :: rest =>
    match rest with
    | '-' :: r2 =>
      let ds := (takeDigits r2).1
      if ds.isEmpty then q else q / (10 : ℚ) ^ digitsVal ds
    | '+' :: r2 =>
      let ds := (takeDigits r2).1
      if ds.isEmpty then q else q * (10 : ℚ) ^ digitsVal ds
    | r2 =>
      let ds := (takeDigits r2).1
      if ds.isEmpty then q else q * (10 : ℚ) ^ digitsVal ds
  | _ => q

/-- The unsigned mantissa of a `parseFloat` literal: digits, an optional dot
with further digits; `none` when no digit is found. -/
def parseUnsigned (l : List Char) : Option (ℚ × List Char) :=
  match takeDigits l with
  | (ip, '.' :: r2) =>
    match takeDigits r2 with
    | (fp, rest) =>
      if ip.isEmpty && fp.isEmpty then none
      else some ((digitsVal ip : ℚ) + (digitsVal fp : ℚ) / (10 : ℚ) ^ fp.length, rest)
  | (ip, rest) => if ip.isEmpty then none else some ((digitsVal ip : ℚ), rest)

/-- JS `parseFloat` on the (already stripped) characters, with the handler's
`Number.isFinite` guard folded in: `none` stands for NaN or an infinity,
both of which `toNumber` maps to 0.  Parses an optional sign, a decimal
mantissa and an optional exponent from the longest valid prefix. -/
def jsParseFloat (l : List Char) : Option ℚ :=
  match l with
  | '-' :: r => (parseUnsigned r).map (fun p => -(parseExp p.1 p.2))
  | '+' :: r => (parseUnsigned r).map (fun p => parseExp p.1 p.2)
  | _ => (parseUnsigned l).map (fun p => parseExp p.1 p.2)

/-- `toNumber` from the pre-enquiry mapper:
`parseFloat(String(val).replace(/[,\s]/g, ""))` with unparsable or
non-finite results defaulting to 0. -/
def toNumber (s : String) : ℚ := (jsParseFloat (stripSep s.toList)).getD 0

/-! ## Theorems settling the claims -/

/-- A sample normalized biller used in concrete instances. -/
def sampleBiller : Biller :=
  { billerId := "B1", billerName := "Acme FASTag", isAvailable := true, coverage := "PAN India" }

/-- C4 (counterexample): an upstream record whose city is present but empty —
neither `undefined` nor `"-"`, so the claim demands coverage `""` — is
normalized to the state instead, because JS truthiness also rejects `""`. -/
theorem c4_coverage_counterexample :
    (normalizeBiller { coverageCity := some "", coverageState := some "Karnataka" }).coverage
        = "Karnataka"
      ∧ claimC4Coverage { coverageCity := some "", coverageState := some "Karnataka" } = ""
      ∧ ("Karnataka" : String) ≠ "" := by
  decide

/-- C4 (amended): the normalized coverage equals the record's city when the
city is neither undefined, empty, nor `"-"`; else the record's state when
the state is neither undefined, empty, nor `"-"`; else `"PAN India"`. -/
theorem c4_coverage_amended :
    ∀ b : UpBiller, (normalizeBiller b).coverage = amendedC4Coverage b := by
  intro b
  rcases b with ⟨_, _, _, _, _, _, city, state, _⟩
  cases city <;> cases state <;>
    simp only [normalizeBiller, amendedC4Coverage, truthyS, Option.getD] <;>
    split_ifs <;> simp_all

/-- C5: the normalized biller is available exactly when the upstream record
carried the boolean `isAvailable: true`, or carried no boolean there and its
`billerStatus` equals `"ACTIVE"`. -/
theorem c5_availability :
    ∀ b : UpBiller,
      (normalizeBiller b).isAvailable = true ↔
        (b.isAvailable = some true
          ∨ (b.isAvailable = none ∧ b.billerStatus = some "ACTIVE")) := by
  intro b
  rcases b with ⟨_, _, _, _, avail, st, _, _, _⟩
  cases avail <;> simp [normalizeBiller]

/-- C9 (counterexample): the step-2 "Back" transition re-enters the
SelectIssuer step with the selected biller still set — nothing clears it. -/
theorem c9_back_counterexample :
    (backFromStep2 { currentStep := 2, selectedBiller := some sampleBiller }).currentStep = 1
      ∧ (backFromStep2 { currentStep := 2, selectedBiller := some sampleBiller }).selectedBiller
          ≠ none := by
  decide

/-- C9 (amended): every "Back" transition of the wizard changes only the
current step (step 2 → 1, step 3 → 2); the selected biller, biller details,
form data, enquiry response and payment mode all remain unchanged — the
transition re-entering SelectIssuer does not clear the selected biller. -/
theorem c9_back_amended :
    ∀ s : WizardState,
      (backFromStep2 s).selectedBiller = s.selectedBiller
        ∧ (backFromStep2 s).billerDetails = s.billerDetails
        ∧ (backFromStep2 s).formData = s.formData
        ∧ (backFromStep2 s).enquiryData = s.enquiryData
        ∧ (backFromStep2 s).selectedPaymentMode = s.selectedPaymentMode
        ∧ (backFromStep2 s).currentStep = 1
        ∧ (backFromStep3 s).selectedBiller = s.selectedBiller
        ∧ (backFromStep3 s).billerDetails = s.billerDetails
        ∧ (backFromStep3 s).formData = s.formData
        ∧ (backFromStep3 s).enquiryData = s.enquiryData
        ∧ (backFromStep3 s).selectedPaymentMode = s.selectedPaymentMode
        ∧ (backFromStep3 s).currentStep = 2 :=
  fun _ => ⟨rfl, rfl, rfl, rfl, rfl, rfl, rfl, rfl, rfl, rfl, rfl, rfl⟩

/-- C10: a billers-proxy request whose body is absent or unparsable is
treated as empty — the forwarded body carries pagination 1/50 and category
`"C10"`, the response is identical to that for an explicitly empty body (so
no 4xx/5xx arises from the parse failure), a 2xx upstream body still passes
through with HTTP 200, and the same defaults apply field-wise whenever any
of the three fields is missing. -/
theorem c10_billers_defaults :
    (∀ (α : Type) (up : BillersFwd → Upstream α),
        (billersPOST α none up).1
          = { pageNumber := 1, recordsPerPage := 50, categoryKey := "C10" })
      ∧ (∀ (α : Type) (up : BillersFwd → Upstream α),
          billersPOST α none up = billersPOST α (some {}) up)
      ∧ (∀ (α : Type) (up : BillersFwd → Upstream α) (s : Nat) (b : α),
          up (billersForward none) = .ok s b → resOk s = true →
          (billersPOST α none up).2 = ⟨200, .pass b⟩)
      ∧ (∀ (α : Type) (up : BillersFwd → Upstream α) (b : BillersBody),
          (billersPOST α (some b) up).1
            = { pageNumber := b.pageNumber.getD 1, recordsPerPage := b.recordsPerPage.getD 50,
                categoryKey := b.categoryKey.getD "C10" }) := by
  refine ⟨fun α up => rfl, fun α up => rfl, ?_, fun α up b => rfl⟩
  intro α up s b hup hok
  simp [billersPOST, hup, hok]

/-- C10 (witness): the concrete parse-failure request with a 2xx upstream. -/
theorem c10_billers_defaults_witness :
    (fun _ : BillersFwd => Upstream.ok 200 (7 : Nat)) (billersForward none) = .ok 200 7
      ∧ resOk 200 = true
      ∧ (billersPOST Nat none (fun _ => Upstream.ok 200 (7 : Nat))).2 = ⟨200, .pass 7⟩ :=
  ⟨rfl, by decide, c10_billers_defaults.2.2.1 Nat (fun _ => Upstream.ok 200 7) 200 7 rfl (by decide)⟩

/-- A second sample biller sharing no id with `sampleBiller`. -/
def sampleBiller2 : Biller :=
  { billerId := "B2", billerName := "Zen Toll", isAvailable := false, coverage := "Karnataka" }

/-- C8 (counterexample): the `seen` set is computed from the previous list
only, so a fetched page containing the same `billerId` twice is appended
twice and the resulting list has duplicate ids. -/
theorem c8_accumulation_counterexample :
    mergeBillers [] [sampleBiller, sampleBiller] = [sampleBiller, sampleBiller]
      ∧ ¬ (List.map (fun p => p.billerId) (mergeBillers [] [sampleBiller, sampleBiller])).Nodup := by
  decide

/-- C8 (amended): each infinite-scroll update preserves every previously
present entry unchanged in its position and appends only fetched records
whose `billerId` is absent from the previous list; the no-duplicate
invariant holds provided the fetched page itself carries pairwise-distinct
ids (duplicates within one page are not filtered against each other).  The
wizard variant replaces the list entirely. -/
theorem c8_accumulation_amended :
    (∀ prev records : List Biller, (mergeBillers prev records).take prev.length = prev)
      ∧ (∀ (prev records : List Biller) (r : Biller),
          r ∈ (mergeBillers prev records).drop prev.length →
          r ∈ records ∧ r.billerId ∉ prev.map (fun p => p.billerId))
      ∧ (∀ prev records : List Biller,
          (prev.map (fun p => p.billerId)).Nodup →
          (records.map (fun p => p.billerId)).Nodup →
          ((mergeBillers prev records).map (fun p => p.billerId)).Nodup)
      ∧ (∀ prev records : List Biller, replaceBillers prev records = records) := by
  refine ⟨?_, ?_, ?_, fun prev records => rfl⟩
  · intro prev records
    simp only [mergeBillers]
    exact List.take_left prev _
  · intro prev records r hr
    simp only [mergeBillers, List.drop_left, List.mem_filter] at hr
    refine ⟨hr.1, ?_⟩
    simpa using hr.2
  · intro prev records hprev hrecords
    simp only [mergeBillers, List.map_append]
    rw [List.nodup_append]
    refine ⟨hprev, ?_, ?_⟩
    · exact hrecords.sublist (List.Sublist.map _ (List.filter_sublist records))
    · intro x hx hx'
      simp only [List.mem_map, List.mem_filter] at hx'
      obtain ⟨r, ⟨_, hkeep⟩, rfl⟩ := hx'
      have : r.billerId ∉ prev.map (fun p => p.billerId) := by simpa using hkeep
      exact this hx

/-- C8 (witness): a concrete accumulation step with distinct page ids. -/
theorem c8_accumulation_amended_witness :
    ([sampleBiller].map (fun p => p.billerId)).Nodup
      ∧ ([sampleBiller2].map (fun p => p.billerId)).Nodup
      ∧ ((mergeBillers [sampleBiller] [sampleBiller2]).map (fun p => p.billerId)).Nodup :=
  ⟨by decide, by decide,
    c8_accumulation_amended.2.2.1 [sampleBiller] [sampleBiller2] (by decide) (by decide)⟩

/-- C3: submit-time validation checks parameters in declaration order — the
first failing parameter's message is returned no matter what follows it;
within one parameter, mandatory-and-empty fires first, then a non-empty
value failing its regex (even when it is also shorter than `minLength`),
then a non-empty value shorter than `minLength` that passed the regex stage;
on any validation failure `onSubmit` raises exactly that message, makes no
network call, and leaves the wizard on the current step, while a fully valid
form triggers the call and moves to step 3. -/
theorem c3_validation :
    ∀ (rtest : String → String → Bool) (fd : List (String × String)),
      (∀ (ps qs : List InputParameter) (p : InputParameter) (m : String),
          (∀ p' ∈ ps, checkParam rtest fd p' = none) →
          checkParam rtest fd p = some m →
          validateParams rtest fd (ps ++ p :: qs) = some m)
        ∧ (∀ p : InputParameter, p.mandatory = true →
            (fd.lookup p.paramName).getD "" = "" →
            checkParam rtest fd p = some ("Please enter " ++ p.name))
        ∧ (∀ p : InputParameter, (fd.lookup p.paramName).getD "" ≠ "" →
            p.regex ≠ "" → rtest p.regex ((fd.lookup p.paramName).getD "") = false →
            checkParam rtest fd p = some ("Invalid " ++ p.name))
        ∧ (∀ p : InputParameter, (fd.lookup p.paramName).getD "" ≠ "" →
            (p.regex = "" ∨ rtest p.regex ((fd.lookup p.paramName).getD "") = true) →
            ((fd.lookup p.paramName).getD "").length < p.minLength →
            checkParam rtest fd p = some
              (p.name ++ " must be at least " ++ toString p.minLength ++ " characters"))
        ∧ (∀ (bd : BillerDetails) (b : Biller) (step : Nat) (m : String),
            validateParams rtest fd bd.inputParameters = some m →
            onSubmit rtest (some bd) (some b) fd step =
              { alertMsg := some m, networkCalled := false, step := step })
        ∧ (∀ (bd : BillerDetails) (b : Biller) (step : Nat),
            validateParams rtest fd bd.inputParameters = none →
            onSubmit rtest (some bd) (some b) fd step =
              { alertMsg := none, networkCalled := true, step := 3 }) := by
  intro rtest fd
  refine ⟨?_, ?_, ?_, ?_, ?_, ?_⟩
  · intro ps
    induction ps with
    | nil =>
      intro qs p m _ hp
      simp [validateParams, hp]
    | cons a ps ih =>
      intro qs p m hnone hp
      have ha : checkParam rtest fd a = none := hnone a (List.mem_cons_self a ps)
      have : validateParams rtest fd (ps ++ p :: qs) = some m :=
        ih qs p m (fun p' hp' => hnone p' (List.mem_cons_of_mem a hp')) hp
      simp [validateParams, ha, this]
  · intro p hmand hempty
    simp [checkParam, hmand, hempty]
  · intro p hval hre hrt
    simp [checkParam, hval, hre, hrt]
  · intro p hval hre hlen
    rcases hre with hre | hre
    · simp [checkParam, hval, hre, hlen]
    · simp [checkParam, hval, hre, hlen]
  · intro bd b step m hv
    simp [onSubmit, hv]
  · intro bd b step hv
    simp [onSubmit, hv]

/-- A mandatory vehicle-number parameter with an empty form value. -/
def vehicleParam : InputParameter :=
  { name := "Vehicle Number", paramName := "vehicleNo", mandatory := true }

/-- A second mandatory parameter, declared after `vehicleParam`. -/
def mobileParam : InputParameter :=
  { name := "Mobile Number", paramName := "mobile", mandatory := true }

/-- An optional, regex-free parameter requiring at least five characters. -/
def tagParam : InputParameter :=
  { name := "Tag ID", paramName := "tagId", minLength := 5 }

/-- C3 (witness): two invalid mandatory parameters — only the first declared
parameter's message is reported, no network call is made, and the wizard
stays on step 2; and a non-empty two-character value for a parameter with
`minLength` 5 is rejected with that parameter's length message. -/
theorem c3_validation_witness :
    checkParam (fun _ _ => true) [] vehicleParam = some "Please enter Vehicle Number"
      ∧ validateParams (fun _ _ => true) [] [vehicleParam, mobileParam]
          = some "Please enter Vehicle Number"
      ∧ onSubmit (fun _ _ => true) (some { inputParameters := [vehicleParam, mobileParam] })
            (some sampleBiller) [] 2
          = { alertMsg := some "Please enter Vehicle Number", networkCalled := false, step := 2 }
      ∧ checkParam (fun _ _ => true) [("tagId", "AB")] tagParam
          = some "Tag ID must be at least 5 characters" :=
  ⟨by decide,
    (c3_validation (fun _ _ => true) []).1 [] [mobileParam] vehicleParam _
      (by simp) (by decide),
    (c3_validation (fun _ _ => true) []).2.2.2.2.1
      { inputParameters := [vehicleParam, mobileParam] } sampleBiller 2 _ (by decide),
    Eq.trans
      ((c3_validation (fun _ _ => true) [("tagId", "AB")]).2.2.2.1 tagParam
        (by decide) (Or.inl rfl) (by decide))
      (by decide)⟩

/-- `jsOrS a b` is non-empty whenever its fallback `b` is. -/
theorem jsOrS_ne_empty (a b : String) (hb : b ≠ "") : jsOrS a b ≠ "" := by
  unfold jsOrS
  split
  · exact hb
  · assumption

/-- A pre-enquiry request passing the handler's field guard. -/
def validPreReq : PreReq :=
  { billerId := some "B001", inputParameters := some [], externalRef := some "SABPE_1" }

/-- An upstream error body with a status message. -/
def badGatewayBody : PreBody := { status := some "Bad gateway" }

/-- C6 (counterexample): a 502 upstream response to the pre-enquiry proxy is
returned as `{ error: "Bad gateway", details: <body> }` — not as
`{ error: <upstream body> }` as the claim states for all three proxies. -/
theorem c6_rewrap_counterexample :
    preEnquiryPOST (.ok validPreReq) (.ok 502 badGatewayBody)
        = ⟨502, .errMsgDetails "Bad gateway" badGatewayBody⟩
      ∧ (preEnquiryPOST (.ok validPreReq) (.ok 502 badGatewayBody)).body
          ≠ .errBody badGatewayBody := by
  decide

/-- C6 (amended): the billers and biller-details proxies re-wrap every
non-2xx upstream response as `{ error: <upstream body> }` with the upstream
status code, while the pre-enquiry proxy re-wraps it as
`{ error: <extracted non-empty message>, details: <upstream body> }` with
the upstream status code; for all three, exceptions yield HTTP 500 with
`{ error: <message> }`. -/
theorem c6_rewrap_amended :
    (∀ (α : Type) (parsed : Option BillersBody) (up : BillersFwd → Upstream α) (s : Nat) (b : α),
        up (billersForward parsed) = .ok s b → resOk s = false →
        (billersPOST α parsed up).2 = ⟨s, .errBody b⟩)
      ∧ (∀ (α : Type) (parsed : Option BillersBody) (up : BillersFwd → Upstream α) (m : String),
          up (billersForward parsed) = .thrown m →
          (billersPOST α parsed up).2 = ⟨500, .errMsg m⟩)
      ∧ (∀ (α : Type) (bid : Option String) (s : Nat) (b : α),
          truthyS bid = true → resOk s = false →
          billerDetailsPOST α (.ok bid) (.ok s b) = ⟨s, .errBody b⟩)
      ∧ (∀ (α : Type) (bid : Option String) (m : String), truthyS bid = true →
          billerDetailsPOST α (.ok bid) (.thrown m) = ⟨500, .errMsg m⟩)
      ∧ (∀ (α : Type) (m : String) (up : Upstream α),
          billerDetailsPOST α (.error m) up = ⟨500, .errMsg m⟩)
      ∧ (∀ (r : PreReq) (s : Nat) (d : PreBody), preReqValid r = true → resOk s = false →
          (preEnquiryPOST (.ok r) (.ok s d)).status = s
            ∧ ∃ m, (preEnquiryPOST (.ok r) (.ok s d)).body = .errMsgDetails m d ∧ m ≠ "")
      ∧ (∀ (r : PreReq) (m : String), preReqValid r = true →
          preEnquiryPOST (.ok r) (.thrown m) = ⟨500, .errMsg m⟩)
      ∧ (∀ (m : String) (up : Upstream PreBody),
          preEnquiryPOST (.error m) up = ⟨500, .errMsg m⟩) := by
  refine ⟨?_, ?_, ?_, ?_, fun α m up => rfl, ?_, ?_, fun m up => rfl⟩
  · intro α parsed up s b hup hok
    simp [billersPOST, hup, hok]
  · intro α parsed up m hup
    simp [billersPOST, hup]
  · intro α bid s b hbid hok
    simp [billerDetailsPOST, hbid, hok]
  · intro α bid m hbid
    simp [billerDetailsPOST, hbid]
  · intro r s d hr hok
    constructor
    · simp [preEnquiryPOST, hr, hok]
    · refine ⟨jsOrS (jvToStr (extractErrorStatus d)) "Request failed", ?_, ?_⟩
      · simp [preEnquiryPOST, hr, hok]
      · exact jsOrS_ne_empty _ _ (by decide)
  · intro r m hr
    simp [preEnquiryPOST, hr]

/-- C6 (witness): concrete non-2xx and thrown upstream interactions. -/
theorem c6_rewrap_amended_witness :
    (billersPOST Nat none (fun _ => Upstream.ok 502 7)).2 = ⟨502, .errBody 7⟩
      ∧ billerDetailsPOST Nat (.ok (some "B001")) (.thrown "network down")
          = ⟨500, .errMsg "network down"⟩
      ∧ preEnquiryPOST (.ok validPreReq) (.thrown "boom") = ⟨500, .errMsg "boom"⟩ :=
  ⟨c6_rewrap_amended.1 Nat none (fun _ => Upstream.ok 502 7) 502 7 rfl (by decide),
    c6_rewrap_amended.2.2.2.1 Nat (some "B001") "network down" (by decide),
    c6_rewrap_amended.2.2.2.2.2.2.1 validPreReq "boom" (by decide)⟩

/-- String `==` unfolds to decidable equality. -/
theorem strBeqDecide (x y : String) : (x == y) = decide (x = y) := by
  by_cases h : x = y <;> simp [h]

/-- The status-code test of `isErrorResponse` agrees with the claim's
spelled-out case-insensitive membership, for any coalesced field value. -/
theorem c1_code_arm (sc : Option String) :
    (truthyS sc && errorStatusCodes.contains (upperStr (sc.getD ""))) =
      (match sc with
       | some s =>
         upperStr s == "ERR" || upperStr s == "IAN" || upperStr s == "INV" ||
           upperStr s == "NF" || upperStr s == "NA"
       | none => false) := by
  cases sc with
  | none => rfl
  | some s =>
    by_cases h : s = ""
    · subst h
      decide
    · simp [h, truthyS, errorStatusCodes, List.contains_cons, strBeqDecide, Bool.or_assoc]

/-- The status-keyword test of `isErrorResponse` agrees with the claim's
spelled-out case-insensitive substring disjunction, for any coalesced field
value. -/
theorem c1_status_arm (st : Option String) :
    (truthyS st && errKeywordTest (st.getD "")) =
      (match st with
       | some s =>
         strHasSub "invalid" (lowerStr s) || strHasSub "error" (lowerStr s) ||
           strHasSub "failed" (lowerStr s) || strHasSub "not found" (lowerStr s) ||
           strHasSub "unavailable" (lowerStr s)
       | none => false) := by
  cases st with
  | none => rfl
  | some s =>
    by_cases h : s = ""
    · subst h
      decide
    · simp [h, truthyS, errKeywordTest, Bool.or_assoc]

/-- C1: a 200 pre-enquiry body is classified as a domain error exactly under
the claim's rule — the coalesced status-code field matches one of
ERR/IAN/INV/NF/NA case-insensitively, or the coalesced status field contains
one of the five error keywords case-insensitively — and in that case the
proxy responds HTTP 400 carrying a non-empty error message with the body as
details, while an unclassified 200 body is passed through unchanged. -/
theorem c1_error_classification :
    (∀ d : PreBody, isErrorResponse d = claimC1DomainError d)
      ∧ (∀ (r : PreReq) (d : PreBody), preReqValid r = true → isErrorResponse d = true →
          (preEnquiryPOST (.ok r) (.ok 200 d)).status = 400
            ∧ ∃ m, (preEnquiryPOST (.ok r) (.ok 200 d)).body = .errMsgDetails m d ∧ m ≠ "")
      ∧ (∀ (r : PreReq) (d : PreBody), preReqValid r = true → isErrorResponse d = false →
          preEnquiryPOST (.ok r) (.ok 200 d) = ⟨200, .pass d⟩) := by
  refine ⟨?_, ?_, ?_⟩
  · intro d
    simp only [isErrorResponse, claimC1DomainError]
    rw [c1_code_arm, c1_status_arm]
  · intro r d hr hd
    constructor
    · simp [preEnquiryPOST, hr, hd, resOk]
    · refine ⟨jsOrS (jvToStr (extractErrorStatus d)) "Invalid request", ?_, ?_⟩
      · simp [preEnquiryPOST, hr, hd, resOk]
      · exact jsOrS_ne_empty _ _ (by decide)
  · intro r d hr hd
    simp [preEnquiryPOST, hr, hd, resOk]

/-- The body showing the proxy chain's order: both an explicit error string
and a status string are present. -/
def statusAndErrorBody : PreBody := { status := some "S", error := .str "E" }

/-- C2 (counterexample): with both `status: "S"` and `error: "E"` present,
the claim's chain (explicit error string first) yields `"E"`, but the proxy
`extractErrorStatus` checks `status` first and yields `"S"`. -/
theorem c2_extraction_counterexample :
    claimC2Chain statusAndErrorBody = "E"
      ∧ extractErrorStatus statusAndErrorBody = .jstr "S"
      ∧ ("E" : String) ≠ "S" := by
  decide

/-- `firstNonEmpty` is non-empty whenever its default is. -/
theorem firstNonEmpty_ne_empty (l : List String) (dflt : String) (h : dflt ≠ "") :
    firstNonEmpty l dflt ≠ "" := by
  induction l with
  | nil => exact h
  | cons s rest ih =>
    unfold firstNonEmpty
    split
    · exact ih
    · assumption

/-- C2 (amended): the proxy variant extracts the first non-empty of status,
nested `error.status`, the error field when it is a string, and `message`,
falling back to the generic text — always a non-empty string; the client
variant returns the whole `error` value first whenever it is truthy (an
object `error` is returned as-is, not as a string), else the first non-empty
of status and `message`, else the fallback. -/
theorem c2_extraction_amended :
    (∀ d : PreBody, extractErrorStatus d = .jstr (amendedC2ProxyChain d))
      ∧ (∀ d : PreBody, amendedC2ProxyChain d ≠ "")
      ∧ (∀ d : PreBody, clientExtractErrorStatus d = amendedC2ClientChain d) := by
  refine ⟨?_, ?_, ?_⟩
  · intro d
    rcases d with ⟨sc, st, err, msg⟩
    cases st <;> cases msg <;> rcases err with _ | e | ⟨osc, ost⟩
    all_goals try cases ost
    all_goals
      simp [extractErrorStatus, amendedC2ProxyChain, jvOr, jvOfOpt, errStatusOf,
        errStrOf, JV.truthy, firstNonEmpty]
    all_goals try (split_ifs <;> simp_all)
  · intro d
    exact firstNonEmpty_ne_empty _ _ (by decide)
  · intro d
    rcases d with ⟨sc, st, err, msg⟩
    cases st <;> cases msg <;> rcases err with _ | e | ⟨osc, ost⟩
    all_goals try cases ost
    all_goals
      simp [clientExtractErrorStatus, amendedC2ClientChain, jvOr, jvOfOpt, errAsJV,
        errStatusOf, errStrOf, JV.truthy, firstNonEmpty]
    all_goals try (split_ifs <;> simp_all)

/-- Digit characters decode to their value. -/
theorem digitVal_digitChar (d : Nat) (h : d < 10) : digitVal (digitChar d) = d := by
  interval_cases d <;> rfl

/-- Digit characters satisfy `Char.isDigit`. -/
theorem isDigit_digitChar (d : Nat) : (digitChar d).isDigit = true := by
  unfold digitChar
  split <;> decide

/-- Digit characters survive the comma/whitespace strip. -/
theorem keep_digitChar (d : Nat) : keepChar (digitChar d) = true := by
  unfold digitChar
  split <;> decide

/-- Digit characters are not sign or dot markers. -/
theorem digitChar_ne_marks (d : Nat) :
    digitChar d ≠ '-' ∧ digitChar d ≠ '+' ∧ digitChar d ≠ '.' := by
  unfold digitChar
  split <;> exact ⟨by decide, by decide, by decide⟩

/-- Appending a digit multiplies the value by ten and adds the digit. -/
theorem digitsVal_append (l : List Char) (c : Char) :
    digitsVal (l ++ [c]) = 10 * digitsVal l + digitVal c := by
  unfold digitsVal
  rw [List.foldl_append]
  rfl

/-- Every character produced by `natDigitsRevF` is a digit character. -/
theorem mem_natDigitsRevF (f : Nat) :
    ∀ (n : Nat) (c : Char), c ∈ natDigitsRevF f n → ∃ d, c = digitChar d := by
  induction f with
  | zero =>
    intro n c hc
    simp [natDigitsRevF] at hc
  | succ f ih =>
    intro n c hc
    cases n with
    | zero => simp [natDigitsRevF] at hc
    | succ m =>
      simp only [natDigitsRevF, List.mem_cons] at hc
      rcases hc with h | h
      · exact ⟨(m + 1) % 10, h⟩
      · exact ih _ _ h

/-- With enough fuel, the rendered digits decode back to the number. -/
theorem digitsVal_natDigitsRevF (f : Nat) :
    ∀ n : Nat, n ≤ f → digitsVal ((natDigitsRevF f n).reverse) = n := by
  induction f with
  | zero =>
    intro n hn
    interval_cases n
    rfl
  | succ f ih =>
    intro n hn
    cases n with
    | zero => rfl
    | succ m =>
      have hd : (m + 1) / 10 ≤ f := by
        have := Nat.div_lt_self (Nat.succ_pos m) (by norm_num : 1 < 10)
        omega
      simp only [natDigitsRevF, List.reverse_cons]
      rw [digitsVal_append, ih _ hd, digitVal_digitChar _ (Nat.mod_lt _ (by norm_num))]
      omega

/-- `natDigits` decodes back to its number. -/
theorem digitsVal_natDigits (n : Nat) : digitsVal (natDigits n) = n := by
  unfold natDigits
  split
  · rename_i h
    subst h
    rfl
  · exact digitsVal_natDigitsRevF n n (le_refl n)

/-- Every character of `natDigits` is a digit character. -/
theorem mem_natDigits (n : Nat) (c : Char) (hc : c ∈ natDigits n) : ∃ d, c = digitChar d := by
  unfold natDigits at hc
  split at hc
  · refine ⟨0, ?_⟩
    simpa using hc
  · exact mem_natDigitsRevF n n c (List.mem_reverse.mp hc)

/-- `natDigits` never renders an empty digit string. -/
theorem natDigits_ne_nil (n : Nat) : natDigits n ≠ [] := by
  unfold natDigits
  split
  · simp
  · rename_i h
    cases n with
    | zero => exact absurd rfl h
    | succ m => simp [natDigitsRevF]

/-- An all-digit list is consumed whole by `takeDigits`. -/
theorem takeDigits_all (l : List Char) (h : ∀ c ∈ l, c.isDigit = true) :
    takeDigits l = (l, []) := by
  induction l with
  | nil => rfl
  | cons c t ih =>
    have hc : c.isDigit = true := h c (List.mem_cons_self c t)
    simp [takeDigits, hc, ih (fun x hx => h x (List.mem_cons_of_mem c hx))]

/-- `takeDigits` stops exactly at the first non-digit. -/
theorem takeDigits_append (l : List Char) (c0 : Char) (t : List Char)
    (h : ∀ c ∈ l, c.isDigit = true) (hc0 : c0.isDigit = false) :
    takeDigits (l ++ c0 :: t) = (l, c0 :: t) := by
  induction l with
  | nil => simp [takeDigits, hc0]
  | cons c l ih =>
    have hc : c.isDigit = true := h c (List.mem_cons_self c l)
    simp [takeDigits, hc, ih (fun x hx => h x (List.mem_cons_of_mem c hx))]

/-- Filtering the group separators back out of `gRev` recovers the digits. -/
theorem filter_gRev :
    ∀ (l : List Char) (k : Nat), (∀ c ∈ l, keepChar c = true) →
      (gRev k l).filter keepChar = l := by
  intro l
  induction l with
  | nil =>
    intro k _
    cases k <;> rfl
  | cons c t ih =>
    intro k h
    have hc := h c (List.mem_cons_self c t)
    have ht := fun x hx => h x (List.mem_cons_of_mem c hx)
    have hcomma : keepChar ',' = false := by decide
    cases k with
    | zero => simp [gRev, List.filter_cons, hcomma, hc, ih 1 ht]
    | succ k => simp [gRev, List.filter_cons, hc, ih k ht]

/-- The strip distributes over append. -/
theorem stripSep_append (l1 l2 : List Char) :
    stripSep (l1 ++ l2) = stripSep l1 ++ stripSep l2 := by
  unfold stripSep
  exact List.filter_append l1 l2

/-- Stripping is the identity on separator-free lists. -/
theorem stripSep_all_keep (l : List Char) (h : ∀ c ∈ l, keepChar c = true) :
    stripSep l = l :=
  List.filter_eq_self.mpr h

/-- Stripping undoes the `en-IN` grouping. -/
theorem stripSep_groupIndian (ds : List Char)
    (h : ∀ c ∈ ds, keepChar c = true) :
    stripSep (groupIndian ds) = ds := by
  unfold stripSep groupIndian
  rw [List.filter_reverse, filter_gRev ds.reverse 3 (fun c hc => h c (List.mem_reverse.mp hc)),
    List.reverse_reverse]

/-- Two padded digits decode to the remainder they render. -/
theorem digitsVal_pad2 (r : Nat) (h : r < 100) : digitsVal (pad2 r) = r := by
  have h1 : r / 10 < 10 := Nat.div_lt_of_lt_mul (by omega)
  have h2 : r % 10 < 10 := Nat.mod_lt _ (by norm_num)
  unfold pad2 digitsVal
  simp only [List.foldl]
  rw [Nat.mul_zero, Nat.zero_add, digitVal_digitChar _ h1, digitVal_digitChar _ h2]
  omega

/-- `jsParseFloat` on a list headed by anything but a sign defers to the
unsigned parse. -/
theorem jsParseFloat_cons (c : Char) (l : List Char) (h1 : c ≠ '-') (h2 : c ≠ '+') :
    jsParseFloat (c :: l) = (parseUnsigned (c :: l)).map (fun p => parseExp p.1 p.2) := by
  unfold jsParseFloat
  split
  · rename_i heq
    rw [List.cons_eq_cons] at heq
    exact absurd heq.1 h1
  · rename_i heq
    rw [List.cons_eq_cons] at heq
    exact absurd heq.1 h2
  · rfl

/-- C7: parsing the formatted rendering of a non-negative amount with at
most two decimal places — represented exactly as `n` paise, the amount being
`n / 100` — returns the amount itself after the comma/whitespace strip; and
any amount string that fails to parse yields 0. -/
theorem c7_amount_roundtrip :
    (∀ n : Nat, toNumber (formatINR n) = (n : ℚ) / 100)
      ∧ (∀ s : String, jsParseFloat (stripSep s.toList) = none → toNumber s = 0) := by
  constructor
  · intro n
    have hmem : ∀ c ∈ natDigits (n / 100), ∃ d, c = digitChar d :=
      fun c hc => mem_natDigits _ c hc
    have hkeep : ∀ c ∈ natDigits (n / 100), keepChar c = true := by
      intro c hc
      obtain ⟨d, rfl⟩ := hmem c hc
      exact keep_digitChar d
    have hdig : ∀ c ∈ natDigits (n / 100), c.isDigit = true := by
      intro c hc
      obtain ⟨d, rfl⟩ := hmem c hc
      exact isDigit_digitChar d
    have hmemPad : ∀ c ∈ pad2 (n % 100), ∃ d, c = digitChar d := by
      intro c hc
      rcases hc with _ | ⟨_, hc⟩
      · exact ⟨n % 100 / 10, rfl⟩
      · rcases hc with _ | ⟨_, hc⟩
        · exact ⟨n % 100 % 10, rfl⟩
        · cases hc
    have hkeepPad : ∀ c ∈ '.' :: pad2 (n % 100), keepChar c = true := by
      intro c hc
      rcases hc with _ | ⟨_, hc⟩
      · decide
      · obtain ⟨d, rfl⟩ := hmemPad c hc
        exact keep_digitChar d
    have hdigPad : ∀ c ∈ pad2 (n % 100), c.isDigit = true := by
      intro c hc
      obtain ⟨d, rfl⟩ := hmemPad c hc
      exact isDigit_digitChar d
    have hstrip : stripSep ((formatINR n).toList)
        = natDigits (n / 100) ++ '.' :: pad2 (n % 100) := by
      have hlist : (formatINR n).toList
          = groupIndian (natDigits (n / 100)) ++ '.' :: pad2 (n % 100) := rfl
      rw [hlist, stripSep_append, stripSep_groupIndian _ hkeep, stripSep_all_keep _ hkeepPad]
    obtain ⟨c0, t, hcons⟩ : ∃ c0 t, natDigits (n / 100) = c0 :: t := by
      cases hd : natDigits (n / 100) with
      | nil => exact absurd hd (natDigits_ne_nil _)
      | cons a b => exact ⟨a, b, rfl⟩
    obtain ⟨d0, hd0⟩ := hmem c0 (by rw [hcons]; exact List.mem_cons_self c0 t)
    have htake : takeDigits (natDigits (n / 100) ++ '.' :: pad2 (n % 100))
        = (natDigits (n / 100), '.' :: pad2 (n % 100)) :=
      takeDigits_append _ '.' _ hdig (by decide)
    have htake2 : takeDigits (pad2 (n % 100)) = (pad2 (n % 100), []) :=
      takeDigits_all _ hdigPad
    have hpu : parseUnsigned (natDigits (n / 100) ++ '.' :: pad2 (n % 100))
        = some ((digitsVal (natDigits (n / 100)) : ℚ)
            + (digitsVal (pad2 (n % 100)) : ℚ) / (10 : ℚ) ^ (pad2 (n % 100)).length, []) := by
      unfold parseUnsigned
      rw [htake]
      have hne : (natDigits (n / 100)).isEmpty = false := by
        rw [hcons]
        rfl
      simp [htake2, hne]
    have hjpf : jsParseFloat (natDigits (n / 100) ++ '.' :: pad2 (n % 100))
        = (parseUnsigned (natDigits (n / 100) ++ '.' :: pad2 (n % 100))).map
            (fun p => parseExp p.1 p.2) := by
      rw [hcons, List.cons_append]
      exact jsParseFloat_cons _ _
        (by rw [hd0]; exact (digitChar_ne_marks d0).1)
        (by rw [hd0]; exact (digitChar_ne_marks d0).2.1)
    unfold toNumber
    rw [hstrip, hjpf, hpu]
    show (digitsVal (natDigits (n / 100)) : ℚ)
        + (digitsVal (pad2 (n % 100)) : ℚ) / (10 : ℚ) ^ (pad2 (n % 100)).length = (n : ℚ) / 100
    rw [digitsVal_natDigits, digitsVal_pad2 _ (Nat.mod_lt _ (by norm_num))]
    have hsplit : (100 : ℚ) * ((n / 100 : Nat) : ℚ) + ((n % 100 : Nat) : ℚ) = (n : ℚ) := by
      exact_mod_cast Nat.div_add_mod n 100
    have hlen : (pad2 (n % 100)).length = 2 := rfl
    rw [hlen]
    have h10 : ((10 : ℚ) ^ (2 : Nat)) = 100 := by norm_num
    rw [h10]
    field_simp
    linarith [hsplit]
  · intro s h
    unfold toNumber
    rw [h]
    rfl

/-- C1 (witness): the upstream 200 body `{statuscode:"NA"}` is classified as
a domain error and the proxy answers HTTP 400 with a non-empty error string. -/
theorem c1_error_classification_witness :
    preReqValid validPreReq = true
      ∧ isErrorResponse { statuscode := some "NA" } = true
      ∧ isErrorResponse { statuscode := some "NA" }
          = claimC1DomainError { statuscode := some "NA" }
      ∧ (preEnquiryPOST (.ok validPreReq) (.ok 200 { statuscode := some "NA" })).status = 400
      ∧ (∃ m, (preEnquiryPOST (.ok validPreReq) (.ok 200 { statuscode := some "NA" })).body
            = .errMsgDetails m { statuscode := some "NA" } ∧ m ≠ "") :=
  ⟨by decide, by decide, c1_error_classification.1 { statuscode := some "NA" },
    (c1_error_classification.2.1 validPreReq { statuscode := some "NA" }
      (by decide) (by decide)).1,
    (c1_error_classification.2.1 validPreReq { statuscode := some "NA" }
      (by decide) (by decide)).2⟩

/-- C2 (witness): the amended chains evaluated on a concrete body carrying
only a nested error status. -/
theorem c2_extraction_amended_witness :
    extractErrorStatus { error := .obj { status := some "Tag not found" } }
        = .jstr (amendedC2ProxyChain { error := .obj { status := some "Tag not found" } })
      ∧ amendedC2ProxyChain { error := .obj { status := some "Tag not found" } } ≠ ""
      ∧ clientExtractErrorStatus { error := .obj { status := some "Tag not found" } }
          = amendedC2ClientChain { error := .obj { status := some "Tag not found" } } :=
  ⟨c2_extraction_amended.1 { error := .obj { status := some "Tag not found" } },
    c2_extraction_amended.2.1 { error := .obj { status := some "Tag not found" } },
    c2_extraction_amended.2.2 { error := .obj { status := some "Tag not found" } }⟩

/-- C7 (witness): the concrete amount 12,345.67 round-trips, and the
unparsable string `"abc"` yields 0. -/
theorem c7_amount_roundtrip_witness :
    toNumber (formatINR 1234567) = (1234567 : ℚ) / 100
      ∧ jsParseFloat (stripSep "abc".toList) = none
      ∧ toNumber "abc" = 0 :=
  ⟨c7_amount_roundtrip.1 1234567, by decide, c7_amount_roundtrip.2 "abc" (by decide)⟩

end FastagSabpe
